import Mathlib

/-!
Shallow embedding of `src/main.go` of SentinalFS/file-monitor-kube-controller.

The program is a polling controller: `main` loops forever, each cycle calling
`queryCRDs` (list FileMonitor resources across all namespaces and log them),
`queryCRDsInNamespace` (list in namespace "default" and log), and
`updateCRDWithFileInfo` (list in namespace "default" and, for every listed
item, attempt to set `status.files` to a hard-coded single-entry slice via
`unstructured.SetNestedSlice` and then call UpdateStatus).

Kubernetes `unstructured` objects (Go `map[string]interface` values) are
modelled as association lists of string keys to untyped values (`UVal`).
Store calls (List, UpdateStatus) are modelled by their results: a `List` call
is an `Except ListErr (List Obj)`, an UpdateStatus call by an oracle
`Obj → Option UpdateErr` giving the store's answer on the submitted object.
The wall-clock value `time.Now().Format(time.RFC3339)` is the `now : String`
parameter. No filesystem model appears because the program never touches the
filesystem.

A crucial library behavior is modelled explicitly: in k8s.io/apimachinery,
`SetNestedSlice` wraps `SetNestedField`, which first passes the value through
`runtime.DeepCopyJSONValue` and only then walks the object. `DeepCopyJSONValue`
accepts only JSON-shaped values (string, int64, bool, float64, nil,
json.Number, maps, slices) and panics with `cannot deep copy int` on a Go
`int`. The slice literal main.go builds at lines 194-203 stores the untyped
constants 12345 and 1024 as Go `int` values, so the copy panics on every call,
before `item.Object` is mutated and before UpdateStatus can be reached; main.go
has no recover, so the panic terminates the process. `UVal` therefore
distinguishes `goInt` (a Go `int`, as produced by the composite literal) from
`int64` (a JSON-decoded integer), and results of code that can panic are
`RunResult` values, where a panic ends the process.
-/

namespace FileMonitor

/-- Untyped value held in an `unstructured.Unstructured` object or built by the
program: the subset of Go dynamic values the program constructs or reads.
`int64` is a JSON-decoded integer (as the store returns); `goInt` is a Go `int`
as produced by untyped integer constants in the composite literal at
main.go:194-203 — the two behave differently under `DeepCopyJSONValue`. -/
inductive UVal where
  | str (s : String)
  | int64 (n : Int)
  | goInt (n : Int)
  | bool (b : Bool)
  | list (xs : List UVal)
  | obj (fields : List (String × UVal))

/-- An unstructured object: a Go `map[string]interface` value, modelled as an
association list in which the first binding for a key is its value. -/
abbrev Obj := List (String × UVal)

/-- Result of running code that can panic: either the normal value, or a panic
carrying its message. The program has no recover, so a panic terminates the
whole process. -/
inductive RunResult (α : Type) where
  | value (a : α)
  | panicked (msg : String)

/-- Map read `m[key]` on an association-list map. -/
def getKey : Obj → String → Option UVal
  | [], _ => none
  | (k, v) :: rest, key => if k = key then some v else getKey rest key

/-- Map write `m[key] = v` on an association-list map: replaces the first
binding of `key`, or appends a new binding when the key is absent. -/
def setKey : Obj → String → UVal → Obj
  | [], key, v => [(key, v)]
  | (k, w) :: rest, key, v =>
    if k = key then (k, v) :: rest else (k, w) :: setKey rest key v

mutual

/-- Functional reading of `runtime.DeepCopyJSONValue`: strings, int64s and
bools are returned as they are; maps and slices are copied recursively; any
other value — in particular a Go `int` — makes it panic with
`cannot deep copy` and the value's type name. -/
def deepCopyJSONValue : UVal → RunResult UVal
  | UVal.str s => RunResult.value (UVal.str s)
  | UVal.int64 n => RunResult.value (UVal.int64 n)
  | UVal.bool b => RunResult.value (UVal.bool b)
  | UVal.goInt _ => RunResult.panicked "cannot deep copy int"
  | UVal.list xs =>
    match deepCopyJSONList xs with
    | RunResult.value ys => RunResult.value (UVal.list ys)
    | RunResult.panicked m => RunResult.panicked m
  | UVal.obj fields =>
    match deepCopyJSONFields fields with
    | RunResult.value gs => RunResult.value (UVal.obj gs)
    | RunResult.panicked m => RunResult.panicked m

/-- Deep copy of the elements of a Go slice, first panic wins. -/
def deepCopyJSONList : List UVal → RunResult (List UVal)
  | [] => RunResult.value []
  | x :: xs =>
    match deepCopyJSONValue x with
    | RunResult.panicked m => RunResult.panicked m
    | RunResult.value y =>
      match deepCopyJSONList xs with
      | RunResult.panicked m => RunResult.panicked m
      | RunResult.value ys => RunResult.value (y :: ys)

/-- Deep copy of the entries of a Go map, first panic wins. -/
def deepCopyJSONFields : List (String × UVal) → RunResult (List (String × UVal))
  | [] => RunResult.value []
  | (k, v) :: rest =>
    match deepCopyJSONValue v with
    | RunResult.panicked m => RunResult.panicked m
    | RunResult.value w =>
      match deepCopyJSONFields rest with
      | RunResult.panicked m => RunResult.panicked m
      | RunResult.value ws => RunResult.value ((k, w) :: ws)

end

/-- Functional reading of apimachinery's `setNestedFieldNoCopy`: walk all
fields but the last, descending into existing submaps (error when a non-map
value sits in the way) and creating missing submaps, then assign the last
field. -/
def setNestedFieldNoCopy : Obj → UVal → List String → Except String Obj
  | _, _, [] => Except.error "no fields given"
  | m, value, [f] => Except.ok (setKey m f value)
  | m, value, f :: fs =>
    match getKey m f with
    | some (UVal.obj sub) =>
      match setNestedFieldNoCopy sub value fs with
      | Except.ok sub2 => Except.ok (setKey m f (UVal.obj sub2))
      | Except.error e => Except.error e
    | some _ => Except.error ("value cannot be set because " ++ f ++ " is not a map")
    | none =>
      match setNestedFieldNoCopy [] value fs with
      | Except.ok sub2 => Except.ok (setKey m f (UVal.obj sub2))
      | Except.error e => Except.error e

/-- Functional reading of `unstructured.SetNestedField(obj, value, fields...)`
(which `SetNestedSlice`, main.go:206, wraps): the value is first passed through
`runtime.DeepCopyJSONValue` — a panic there terminates the process before the
object is touched — and only a successfully copied value is written with
`setNestedFieldNoCopy`. -/
def setNestedField (m : Obj) (value : UVal) (fields : List String) :
    RunResult (Except String Obj) :=
  match deepCopyJSONValue value with
  | RunResult.panicked msg => RunResult.panicked msg
  | RunResult.value v => RunResult.value (setNestedFieldNoCopy m v fields)

/-- `item.GetName()`: reads `metadata.name`, empty string when absent. -/
def getName (o : Obj) : String :=
  match getKey o "metadata" with
  | some (UVal.obj m) =>
    match getKey m "name" with
    | some (UVal.str s) => s
    | _ => ""
  | _ => ""

/-- `item.GetNamespace()`: reads `metadata.namespace`, empty string when absent. -/
def getNamespace (o : Obj) : String :=
  match getKey o "metadata" with
  | some (UVal.obj m) =>
    match getKey m "namespace" with
    | some (UVal.str s) => s
    | _ => ""
  | _ => ""

/-- The `fileInfo` slice built inside the loop of `updateCRDWithFileInfo`
(main.go:194-203): one hard-coded entry whose `modTime` is
`time.Now().Format(time.RFC3339)` (the parameter `now`) and whose `inode` and
`size` fields hold the untyped constants 12345 and 1024 — Go `int` values,
not int64. -/
def fileInfo (now : String) : UVal :=
  UVal.list
    [UVal.obj
      [("name", UVal.str "example.txt"),
       ("inode", UVal.goInt 12345),
       ("size", UVal.goInt 1024),
       ("modTime", UVal.str now),
       ("path", UVal.str "/tmp/example.txt"),
       ("isDir", UVal.bool false)]]

/-- Outcome of a store List call as classified by the program: Go
`errors.IsNotFound(err)` distinguishes the NotFound case from other errors. -/
inductive ListErr where
  | notFound
  | other (msg : String)
deriving DecidableEq

/-- Outcome of an UpdateStatus call against the store (the error kinds of the
spec taxonomy: Conflict, NotFound, Unavailable, anything else). -/
inductive UpdateErr where
  | conflict
  | notFound
  | unavailable
  | other (msg : String)
deriving DecidableEq

/-- What one completed iteration of the loop of `updateCRDWithFileInfo`
(main.go:188-219) did for its listed item: either `SetNestedSlice` returned an
error (logged, `continue`, no store call), or exactly one UpdateStatus call was
made with the submitted object and the store's answer (a `some` answer is
logged and the loop continues). An iteration that panics instead completes
with no event. -/
inductive ItemEvent where
  | setFailed (name : String)
  | updateCalled (nspace : String) (submitted : Obj) (result : Option UpdateErr)

/-- One iteration of the loop body of `updateCRDWithFileInfo`
(main.go:188-219): log the name, build the `fileInfo` slice, call
`SetNestedSlice` — whose deep copy panics on the slice's Go `int` fields,
terminating the process — and only on a non-panicking run either skip on error
or call UpdateStatus. -/
def processItem (updateResult : Obj → Option UpdateErr) (nspace now : String)
    (item : Obj) : RunResult ItemEvent :=
  match setNestedField item (fileInfo now) ["status", "files"] with
  | RunResult.panicked msg => RunResult.panicked msg
  | RunResult.value (Except.error _) =>
    RunResult.value (ItemEvent.setFailed (getName item))
  | RunResult.value (Except.ok newObj) =>
    RunResult.value (ItemEvent.updateCalled nspace newObj (updateResult newObj))

/-- The `for` loop over the listed items (main.go:188-219): items are handled
in order; a panic in one iteration terminates the process, so later items are
never processed. Returns the events of the completed iterations together with
the panic message if one ended the run. -/
def runItems (updateResult : Obj → Option UpdateErr) (nspace now : String) :
    List Obj → List ItemEvent × Option String
  | [] => ([], none)
  | it :: rest =>
    match processItem updateResult nspace now it with
    | RunResult.panicked msg => ([], some msg)
    | RunResult.value ev =>
      match runItems updateResult nspace now rest with
      | (evs, p) => (ev :: evs, p)

/-- How one call of `updateCRDWithFileInfo` ends: either the process dies in a
panic (carrying the events of the iterations completed before it), or the
function returns its Go error value. -/
inductive UpdateRun where
  | panicked (completed : List ItemEvent) (msg : String)
  | returned (result : Except String (List ItemEvent))

/-- `updateCRDWithFileInfo` (main.go:175-222): list the namespace; a NotFound
error is logged and swallowed (`return nil`), any other list error is returned
as a failure; otherwise the loop over the listed items runs — and if any
iteration panics the function never returns and the process dies. -/
def updateCRDWithFileInfo (listResult : Except ListErr (List Obj))
    (updateResult : Obj → Option UpdateErr) (nspace now : String) : UpdateRun :=
  match listResult with
  | Except.error ListErr.notFound => UpdateRun.returned (Except.ok [])
  | Except.error (ListErr.other m) =>
    UpdateRun.returned (Except.error ("failed to list CRDs for update: " ++ m))
  | Except.ok items =>
    match runItems updateResult nspace now items with
    | (evs, some msg) => UpdateRun.panicked evs msg
    | (evs, none) => UpdateRun.returned (Except.ok evs)

/-- `queryCRDs` (main.go:118-149): list across all namespaces; NotFound is
logged and swallowed, other errors returned; found items are only logged. -/
def queryCRDs (listResult : Except ListErr (List Obj)) : Except String Unit :=
  match listResult with
  | Except.error ListErr.notFound => Except.ok ()
  | Except.error (ListErr.other m) =>
    Except.error ("failed to list CRDs: " ++ m)
  | Except.ok _ => Except.ok ()

/-- `queryCRDsInNamespace` (main.go:152-172): list one namespace; NotFound is
logged and swallowed, other errors returned; found items are only logged. -/
def queryCRDsInNamespace (listResult : Except ListErr (List Obj))
    (nspace : String) : Except String Unit :=
  match listResult with
  | Except.error ListErr.notFound => Except.ok ()
  | Except.error (ListErr.other m) =>
    Except.error ("failed to list CRDs in namespace " ++ nspace ++ ": " ++ m)
  | Except.ok _ => Except.ok ()

/-- The record store as seen by one cycle: the result of a cluster-wide List
and of a per-namespace List. -/
structure Store where
  listAll : Except ListErr (List Obj)
  listNs : String → Except ListErr (List Obj)

/-- Outcomes of the three calls one iteration of the `for` loop in `main`
(main.go:63-84) makes; a returned error is only logged and the loop continues,
while a panicking update pass kills the process — its error logging and every
later cycle never happen. -/
structure CycleResult where
  queryAllOutcome : Except String Unit
  queryNsOutcome : Except String Unit
  updateOutcome : UpdateRun

/-- One iteration of the infinite loop in `main` (main.go:63-84): query all
namespaces, query namespace "default", update CRDs in namespace "default". -/
def cycle (store : Store) (updateResult : Obj → Option UpdateErr)
    (now : String) : CycleResult :=
  { queryAllOutcome := queryCRDs store.listAll
  , queryNsOutcome := queryCRDsInNamespace (store.listNs "default") "default"
  , updateOutcome :=
      updateCRDWithFileInfo (store.listNs "default") updateResult "default" now }

/-- The completed per-record events of one cycle: empty when the update call
failed at the listing stage, and the events of the iterations completed before
the panic when the pass crashed. -/
def cycleEvents (store : Store) (updateResult : Obj → Option UpdateErr)
    (now : String) : List ItemEvent :=
  match (cycle store updateResult now).updateOutcome with
  | UpdateRun.panicked evs _ => evs
  | UpdateRun.returned (Except.ok evs) => evs
  | UpdateRun.returned (Except.error _) => []

/-- Number of UpdateStatus calls recorded in a list of item events. -/
def updateCallCount : List ItemEvent → Nat
  | [] => 0
  | ItemEvent.setFailed _ :: t => updateCallCount t
  | ItemEvent.updateCalled _ _ _ :: t => 1 + updateCallCount t

/-- Start/finish events of per-record work. -/
inductive TraceEv where
  | enter (name : String)
  | exit (name : String)
deriving DecidableEq

/-- Execution trace of the update loop (main.go:188-219): the loop body handles
one listed item to completion before the next iteration begins, so the trace
is strictly sequential — each record's work is entered and exited before the
next record's work is entered. -/
def workerTrace (items : List Obj) : List TraceEv :=
  items.flatMap (fun it => [TraceEv.enter (getName it), TraceEv.exit (getName it)])

/-- Largest number of simultaneously in-flight record workers reached along a
trace, starting from `cur` in flight. -/
def peakRunning (cur : Int) : List TraceEv → Int
  | [] => cur
  | TraceEv.enter _ :: t => max (cur + 1) (peakRunning (cur + 1) t)
  | TraceEv.exit _ :: t => peakRunning (cur - 1) t

/-- Test fixture: a FileMonitor object shaped like the CRD in the README
(metadata.name, metadata.namespace, spec.path, spec.namespace), no status. -/
def mkItem (name nspace path : String) : Obj :=
  [("apiVersion", UVal.str "sentinalfs.io/v1"),
   ("kind", UVal.str "FileMonitor"),
   ("metadata", UVal.obj [("name", UVal.str name), ("namespace", UVal.str nspace)]),
   ("spec", UVal.obj [("path", UVal.str path), ("namespace", UVal.str nspace)])]

/-- Test fixture: the same object with an existing `status.files` value. -/
def mkItemWithStatus (name nspace path : String) (files : UVal) : Obj :=
  mkItem name nspace path ++ [("status", UVal.obj [("files", files)])]

/-- Test fixture: a record in namespace `kube-system`. -/
def itemOther : Obj := mkItem "fm-other" "kube-system" "/data"

/-- Test fixture: a record in namespace `default`. -/
def itemDef : Obj := mkItem "fm-def" "default" "/data"

/-- Test fixture: a store holding exactly one record, in namespace
`kube-system`: the cluster-wide List returns it, a namespaced List returns it
only for its own namespace. -/
def store0 : Store :=
  { listAll := Except.ok [itemOther]
  , listNs := fun ns =>
      if ns = "kube-system" then Except.ok [itemOther] else Except.ok [] }

/-- Test fixture: a store holding exactly one record, in namespace `default`. -/
def store1 : Store :=
  { listAll := Except.ok [itemDef]
  , listNs := fun ns =>
      if ns = "default" then Except.ok [itemDef] else Except.ok [] }

/-- Test fixture: a record whose stored `status.files` already equals the slice
the controller builds at run time `2025-01-13T10:00:00Z`. -/
def itemUnchanged : Obj :=
  mkItemWithStatus "fm-unchanged" "default" "/data" (fileInfo "2025-01-13T10:00:00Z")

/-- Test fixture: record `fm-a` in namespace `default`. -/
def itemA : Obj := mkItem "fm-a" "default" "/a"

/-- Test fixture: record `fm-b` in namespace `default`. -/
def itemB : Obj := mkItem "fm-b" "default" "/b"

theorem deepCopy_fileInfo (now : String) :
    deepCopyJSONValue (fileInfo now) = RunResult.panicked "cannot deep copy int" := by
  simp [fileInfo, deepCopyJSONValue, deepCopyJSONList, deepCopyJSONFields]

theorem processItem_panics (f : Obj → Option UpdateErr) (ns now : String)
    (item : Obj) :
    processItem f ns now item = RunResult.panicked "cannot deep copy int" := by
  unfold processItem setNestedField
  rw [deepCopy_fileInfo]

theorem runItems_nonempty (f : Obj → Option UpdateErr) (ns now : String)
    (it : Obj) (rest : List Obj) :
    runItems f ns now (it :: rest) = ([], some "cannot deep copy int") := by
  simp [runItems, processItem_panics]

theorem updateRun_nonempty (f : Obj → Option UpdateErr) (ns now : String)
    (it : Obj) (rest : List Obj) :
    updateCRDWithFileInfo (Except.ok (it :: rest)) f ns now
      = UpdateRun.panicked [] "cannot deep copy int" := by
  simp [updateCRDWithFileInfo, runItems_nonempty]

theorem workerTrace_cons (it : Obj) (rest : List Obj) :
    workerTrace (it :: rest)
      = TraceEv.enter (getName it) :: TraceEv.exit (getName it) :: workerTrace rest := by
  simp [workerTrace]

/-- C1. The claim says the status written back reflects a filesystem scan of
the record's declared root path, one FileEntry per object under that root.
In reality no status is ever written: the code never reads the filesystem —
for every declared path it builds the same hard-coded slice, whose `inode` and
`size` fields are Go ints — and then `SetNestedSlice` panics deep-copying those
ints, so the run dies with zero completed iterations, zero UpdateStatus calls,
and the stored status untouched. -/
theorem updateNeverWritesAnyStatus :
    (∀ (path : String) (f : Obj → Option UpdateErr),
      updateCRDWithFileInfo (Except.ok [mkItem "fm1" "default" path]) f
          "default" "2025-01-13T10:00:00Z"
        = UpdateRun.panicked [] "cannot deep copy int") ∧
    fileInfo "2025-01-13T10:00:00Z"
      = UVal.list
          [UVal.obj
            [("name", UVal.str "example.txt"),
             ("inode", UVal.goInt 12345),
             ("size", UVal.goInt 1024),
             ("modTime", UVal.str "2025-01-13T10:00:00Z"),
             ("path", UVal.str "/tmp/example.txt"),
             ("isDir", UVal.bool false)]] ∧
    updateCallCount [] = 0 := by
  refine ⟨?_, rfl, rfl⟩
  intro path f
  exact updateRun_nonempty f "default" "2025-01-13T10:00:00Z" _ _

/-- C2. The claim says an empty ChangeSet suppresses the write-back, so an
unchanged record has no status mutation attempted. The code computes no
ChangeSet at all, and even for a record whose stored `status.files` already
equals the slice being built, its processing panics in `SetNestedSlice` before
any store write: the cycle dies with zero completed iterations and zero
UpdateStatus calls, instead of skipping the unchanged record. -/
theorem unchangedRecordNeverWritten :
    updateCRDWithFileInfo (Except.ok [itemUnchanged]) (fun _ => none)
        "default" "2025-01-13T10:00:00Z"
      = UpdateRun.panicked [] "cannot deep copy int" ∧
    updateCallCount [] = 0 :=
  ⟨updateRun_nonempty (fun _ => none) "default" "2025-01-13T10:00:00Z"
    itemUnchanged [], rfl⟩

/-- C3. The claim says a record whose declared root path does not exist gets
Outcome Failed(ScanError) with its stored status left unmodified. The code
performs no scan and never consults the filesystem: processing the record
declaring the root `/does-not-exist` panics in `SetNestedSlice` — the stored
status is indeed never modified and UpdateStatus is never called, but the
outcome is a process crash, not Failed(ScanError), and the function never
returns. -/
theorem missingRootPathNeverScannedNorUpdated :
    updateCRDWithFileInfo
        (Except.ok [mkItem "fm-missing" "default" "/does-not-exist"])
        (fun _ => none) "default" "2025-01-13T10:00:00Z"
      = UpdateRun.panicked [] "cannot deep copy int" ∧
    updateCallCount [] = 0 :=
  ⟨updateRun_nonempty (fun _ => none) "default" "2025-01-13T10:00:00Z"
    (mkItem "fm-missing" "default" "/does-not-exist") [], rfl⟩

/-- C4. The claim says a Conflict answer to the status write triggers a
refetch-recompute-retry sequence within the same attempt. The store is never
called at all: even with a store poised to answer Conflict, the record's
processing panics in `SetNestedSlice` before UpdateStatus, so no Conflict can
ever be observed and the conflict-handling branch of the loop is unreachable —
zero UpdateStatus attempts are made, let alone retried. -/
theorem conflictPathUnreachable :
    updateCRDWithFileInfo (Except.ok [mkItem "fm4" "default" "/data"])
        (fun _ => some UpdateErr.conflict) "default" "2025-01-13T10:00:00Z"
      = UpdateRun.panicked [] "cannot deep copy int" ∧
    updateCallCount [] = 0 :=
  ⟨updateRun_nonempty (fun _ => some UpdateErr.conflict) "default"
    "2025-01-13T10:00:00Z" (mkItem "fm4" "default" "/data") [], rfl⟩

/-- C5 counterexample. The lines the claim cites (main.go:194-203) compute the
slice standing where the diff step should be; two runs with identical inputs
but run times thirty seconds apart build different values, because the entry's
`modTime` field is the run's wall clock — the computation is not independent of
when the run occurs. -/
theorem fileInfoDependsOnRunTime :
    fileInfo "2025-01-13T10:00:00Z" ≠ fileInfo "2025-01-13T10:00:30Z" := by
  intro h
  simp [fileInfo] at h

/-- C5 amended: there is no diff step; the slice built in its place takes no
input other than the run's wall clock, and processing it has one fully
deterministic outcome — independent of the record, its previous status, the
store's answers and even the run time, every run panics identically in
`SetNestedSlice` before any comparison or write. -/
theorem processingOutcomeIndependentOfInputs
    (f1 f2 : Obj → Option UpdateErr) (ns1 ns2 now1 now2 : String)
    (item1 item2 : Obj) :
    processItem f1 ns1 now1 item1 = processItem f2 ns2 now2 item2 := by
  rw [processItem_panics, processItem_panics]

/-- C6. At most one record worker is ever in flight: the update loop of
`updateCRDWithFileInfo` handles each listed item to completion before starting
the next, so along the execution trace of any cycle — including one whose list
carries a hundred or more tasks for the same record identity — the number of
simultaneously executing per-record workers never exceeds one. -/
theorem atMostOneWorkerInFlight (items : List Obj) :
    peakRunning 0 (workerTrace items) ≤ 1 := by
  induction items with
  | nil => simp [workerTrace, peakRunning]
  | cons it rest ih =>
    have h0 : (0 : Int) + 1 - 1 = 0 := by norm_num
    rw [workerTrace_cons]
    simp only [peakRunning, h0]
    omega

/-- C7 counterexample. A store holding exactly one record, living in namespace
`kube-system`: the cycle's cluster-wide enumeration returns it, yet the cycle
performs zero per-record update invocations, because `main` passes only
namespace `default` to `updateCRDWithFileInfo` — an enumerated record is
skipped solely for its namespace. -/
theorem nonDefaultNamespaceRecordNeverReconciled :
    store0.listAll = Except.ok [itemOther] ∧
    getNamespace itemOther = "kube-system" ∧
    queryCRDs store0.listAll = Except.ok () ∧
    cycleEvents store0 (fun _ => none) "2025-01-13T10:00:00Z" = [] ∧
    updateCallCount (cycleEvents store0 (fun _ => none) "2025-01-13T10:00:00Z") = 0 :=
  ⟨rfl, rfl, rfl, rfl, rfl⟩

/-- C7 amended: no enumerated record in any namespace ever receives a completed
reconciliation invocation. Records outside namespace `default` are never
dispatched at all; and when the `default` listing is non-empty the pass panics
at its first record before producing any event, so every cycle's list of
completed per-record events is empty. -/
theorem noRecordEverCompletesInvocation (store : Store)
    (f : Obj → Option UpdateErr) (now : String) :
    cycleEvents store f now = [] ∧
    (∀ (it : Obj) (rest : List Obj),
      store.listNs "default" = Except.ok (it :: rest) →
      updateCRDWithFileInfo (store.listNs "default") f "default" now
        = UpdateRun.panicked [] "cannot deep copy int") := by
  constructor
  · unfold cycleEvents cycle
    cases hls : store.listNs "default" with
    | error e =>
      cases e with
      | notFound => simp [updateCRDWithFileInfo]
      | other m => simp [updateCRDWithFileInfo]
    | ok items =>
      cases items with
      | nil => simp [updateCRDWithFileInfo, runItems]
      | cons it rest => simp [updateRun_nonempty]
  · intro it rest h
    rw [h]
    exact updateRun_nonempty f "default" now it rest

/-- C7 witness: the amended behavior at the store holding one `default`
record — the cycle completes no invocation and the update pass panics. -/
theorem noRecordEverCompletesInvocation_witness :
    cycleEvents store1 (fun _ => none) "2025-01-13T10:00:00Z" = [] ∧
    updateCRDWithFileInfo (store1.listNs "default") (fun _ => none) "default"
        "2025-01-13T10:00:00Z"
      = UpdateRun.panicked [] "cannot deep copy int" :=
  ⟨(noRecordEverCompletesInvocation store1 (fun _ => none) "2025-01-13T10:00:00Z").1,
   (noRecordEverCompletesInvocation store1 (fun _ => none) "2025-01-13T10:00:00Z").2
     itemDef [] rfl⟩

/-- C8. The claim says one record's failure can neither prevent another
record's processing nor terminate the process. Evaluating a cycle whose
`default` listing holds the two records `fm-a` and `fm-b`: whatever the store
would answer, processing `fm-a` panics in `SetNestedSlice` and the process
dies — `fm-b` is never processed, zero iterations complete, and the loop's
log-and-continue error handling is unreachable. -/
theorem oneRecordPanicBlocksAllOthers :
    ∀ f : Obj → Option UpdateErr,
      updateCRDWithFileInfo (Except.ok [itemA, itemB]) f "default"
          "2025-01-13T10:00:00Z"
        = UpdateRun.panicked [] "cannot deep copy int" :=
  fun f => updateRun_nonempty f "default" "2025-01-13T10:00:00Z" itemA [itemB]

/-- C9. Each of `queryCRDs`, `queryCRDsInNamespace` and `updateCRDWithFileInfo`
swallows a NotFound listing error — it returns success, indistinguishable from
a successful listing of zero records — while every other listing error is
propagated as a failure carrying the corresponding message. -/
theorem notFoundSwallowedOtherErrorsPropagated (msg ns now : String)
    (f : Obj → Option UpdateErr) :
    queryCRDs (Except.error ListErr.notFound) = Except.ok () ∧
    queryCRDsInNamespace (Except.error ListErr.notFound) ns = Except.ok () ∧
    updateCRDWithFileInfo (Except.error ListErr.notFound) f ns now
      = UpdateRun.returned (Except.ok []) ∧
    queryCRDs (Except.error ListErr.notFound) = queryCRDs (Except.ok []) ∧
    queryCRDsInNamespace (Except.error ListErr.notFound) ns
      = queryCRDsInNamespace (Except.ok []) ns ∧
    updateCRDWithFileInfo (Except.error ListErr.notFound) f ns now
      = updateCRDWithFileInfo (Except.ok []) f ns now ∧
    queryCRDs (Except.error (ListErr.other msg))
      = Except.error ("failed to list CRDs: " ++ msg) ∧
    queryCRDsInNamespace (Except.error (ListErr.other msg)) ns
      = Except.error ("failed to list CRDs in namespace " ++ ns ++ ": " ++ msg) ∧
    updateCRDWithFileInfo (Except.error (ListErr.other msg)) f ns now
      = UpdateRun.returned (Except.error ("failed to list CRDs for update: " ++ msg)) :=
  ⟨rfl, rfl, rfl, rfl, rfl, rfl, rfl, rfl, rfl⟩

/-- C10 counterexample. The claim says every processed record has only its
`status.files` field mutated before the conditional status update is
submitted. Processing the concrete record `fm10` submits nothing at all: the
run panics with zero completed iterations and zero UpdateStatus calls — no
object is ever submitted, and the record object is never mutated, because the
deep copy panics before `setNestedFieldNoCopy` would touch it. -/
theorem recordProcessedWithoutSubmission :
    updateCRDWithFileInfo
        (Except.ok [mkItemWithStatus "fm10" "default" "/data" (UVal.str "old")])
        (fun _ => none) "default" "2025-01-13T10:00:00Z"
      = UpdateRun.panicked [] "cannot deep copy int" ∧
    updateCallCount [] = 0 :=
  ⟨updateRun_nonempty (fun _ => none) "default" "2025-01-13T10:00:00Z"
    (mkItemWithStatus "fm10" "default" "/data" (UVal.str "old")) [], rfl⟩

/-- C10 amended: `updateCRDWithFileInfo` mutates nothing and submits nothing
for any record it processes: the deep copy inside `SetNestedSlice` panics on
the payload's Go `int` fields before the record object is walked and before
UpdateStatus is reached, so no iteration ever yields an UpdateStatus event —
the record's metadata, spec and stored status all stay exactly as the store
holds them. -/
theorem noObjectEverSubmitted (f : Obj → Option UpdateErr) (ns now : String)
    (item : Obj) :
    processItem f ns now item = RunResult.panicked "cannot deep copy int" ∧
    ∀ (ns2 : String) (subm : Obj) (r : Option UpdateErr),
      processItem f ns now item
        ≠ RunResult.value (ItemEvent.updateCalled ns2 subm r) := by
  constructor
  · exact processItem_panics f ns now item
  · intro ns2 subm r h
    rw [processItem_panics] at h
    exact RunResult.noConfusion h

end FileMonitor
